import Mathlib

/-!
Shallow embedding of the TDC Mark III simulation engine
(`src/patrolReports/tdc_simulator/tdc_engine.js`, first document in the file;
the second document after the separator is a superseded legacy draft of the
same engine, which the specification's design notes describe as an artifact
of iterative development to be ignored in favour of the fuller model).

JavaScript numbers are modelled by real numbers; every mathematical
operation of the source (`Math.sin`, `Math.cos`, `Math.atan2`, `Math.sqrt`,
`Math.abs`, `Math.max`, `Math.min`, `Math.sign`) is mapped to its real
counterpart.  Mutable engine state is modelled by explicit state-passing
records mirroring the fields of the `TDCMarkIII` class and of the four
mechanical component classes.  In the one place where the exact-real
idealization and double precision part ways on the property at issue — the
termination of the `normalizeAngle` loops at astronomically large angles —
the relevant double-precision rounding is modelled explicitly (`fl63`,
`normFuelDownD`) instead.
-/

namespace TDC

noncomputable section

open Real

/-- Degrees to radians, `x * Math.PI / 180` in the source. -/
def degRad (x : ℝ) : ℝ := x * Real.pi / 180

/-- Yards per second per knot, `2025.4 / 3600` in the constructor. -/
def KNOTS_TO_YPS : ℝ := 2025.4 / 3600

/-- Torpedo speed in knots (`this.TORPEDO_SPEED = 46`). -/
def TORPEDO_SPEED : ℝ := 46

/-- Tube base line in yards (`this.TUBE_BASE_LINE = 50`). -/
def TUBE_BASE_LINE : ℝ := 50

/-- Reach in yards (`this.REACH = 75`). -/
def REACH : ℝ := 75

/-- Torpedo turning radius in yards (`this.TURN_RADIUS = 130`). -/
def TURN_RADIUS : ℝ := 130

/-- Servo rate in degrees per second (`this.gyroServoRate = 8`). -/
def gyroServoRate : ℝ := 8

/-- Servo momentum retention (`this.servoInertia = 0.95`). -/
def servoInertia : ℝ := 0.95

/-- Total straight distance before the turn starts,
`this.getTotalStraightRun = () => Math.abs(this.TUBE_BASE_LINE) + this.REACH`. -/
def getTotalStraightRun : ℝ := |TUBE_BASE_LINE| + REACH

/-- JavaScript `Math.atan2 (y, x)` on the reals (signed zeros do not exist in `ℝ`;
`Math.atan2 (0, 0) = 0` as in the source's reachable use). -/
def atan2 (y x : ℝ) : ℝ :=
  if 0 < x then Real.arctan (y / x)
  else if x < 0 then
    (if 0 ≤ y then Real.arctan (y / x) + Real.pi else Real.arctan (y / x) - Real.pi)
  else
    (if 0 < y then Real.pi / 2 else if y < 0 then -(Real.pi / 2) else 0)

/-- State of a `Differential` component (bevel gear differential).
`addOp` records the operation fixed at construction. -/
structure Differential where
  addOp : Bool
  input1 : ℝ
  input2 : ℝ
  output : ℝ
  rotation : ℝ

/-- `Differential.prototype.update`. -/
def Differential.update (d : Differential) (input1 input2 : ℝ) : Differential :=
  { d with
    input1 := input1
    input2 := input2
    output := if d.addOp then input1 + input2 else input1 - input2
    rotation := d.rotation + (input1 + input2) / 2 }

/-- State of an `Integrator` component (disc and roller integrator). -/
structure Integrator where
  rollerPosition : ℝ
  discRate : ℝ
  accumulated : ℝ
  discRotation : ℝ
  outputRotation : ℝ

/-- `Integrator.prototype.update`. -/
def Integrator.update (i : Integrator) (rollerPosition discRate dt : ℝ) : Integrator :=
  { i with
    rollerPosition := rollerPosition
    discRate := discRate
    accumulated := i.accumulated + rollerPosition * discRate * dt
    discRotation := i.discRotation + discRate * dt * 50
    outputRotation := i.outputRotation + rollerPosition * discRate * dt * 50 }

/-- `Integrator.prototype.reset` (note: `rollerPosition` and `discRate` are
not touched by the source's `reset`). -/
def Integrator.reset (i : Integrator) : Integrator :=
  { i with accumulated := 0, discRotation := 0, outputRotation := 0 }

/-- State of a `Resolver` component (angle to sine/cosine). -/
structure Resolver where
  inputAngle : ℝ
  sinOutput : ℝ
  cosOutput : ℝ
  rotation : ℝ

/-- `Resolver.prototype.update`; the input is in degrees. -/
def Resolver.update (_r : Resolver) (angleDegrees : ℝ) : Resolver :=
  { inputAngle := angleDegrees
    sinOutput := Real.sin (degRad angleDegrees)
    cosOutput := Real.cos (degRad angleDegrees)
    rotation := angleDegrees }

/-- State of a `Cam` component; `profile` is the profile function fixed at
construction. -/
structure Cam where
  profile : ℝ → ℝ
  inputAngle : ℝ
  output : ℝ
  rotation : ℝ

/-- `Cam.prototype.update`. -/
def Cam.update (c : Cam) (inputAngle : ℝ) : Cam :=
  { c with
    inputAngle := inputAngle
    output := c.profile inputAngle
    rotation := inputAngle }

/-- The six operator inputs (`this.inputs`). -/
structure Inputs where
  ownCourse : ℝ
  ownSpeed : ℝ
  targetBearing : ℝ
  targetRange : ℝ
  targetCourse : ℝ
  targetSpeed : ℝ

/-- Position state (`this.state`). -/
structure Kin where
  ownX : ℝ
  ownY : ℝ
  targetX : ℝ
  targetY : ℝ
  elapsedTime : ℝ

/-- Published outputs (`this.outputs`). -/
structure Outputs where
  gyroAngle : ℝ
  relativeBearing : ℝ
  targetAngle : ℝ
  presentBearing : ℝ
  presentRange : ℝ
  torpedoRun : ℝ
  runTime : ℝ
  trackAngle : ℝ
  isSolved : Bool
  solverError : ℝ

/-- Full engine state: the fields of the `TDCMarkIII` class. -/
structure EState where
  inputs : Inputs
  kin : Kin
  gyroAngle : ℝ
  servoVelocity : ℝ
  diff7 : Differential
  diff33 : Differential
  diff28 : Differential
  diff29 : Differential
  diff22FA : Differential
  resolver13 : Resolver
  resolver34 : Resolver
  resolver2FA : Resolver
  int20 : Integrator
  int25 : Integrator
  int14 : Integrator
  int15 : Integrator
  int35 : Integrator
  int36 : Integrator
  camP : Cam
  camJ : Cam
  camUs : Cam
  outputs : Outputs

/-- A freshly constructed `Differential`. -/
def mkDifferential (addOp : Bool) : Differential :=
  { addOp := addOp, input1 := 0, input2 := 0, output := 0, rotation := 0 }

/-- A freshly constructed `Integrator`. -/
def mkIntegrator : Integrator :=
  { rollerPosition := 0, discRate := 0, accumulated := 0, discRotation := 0, outputRotation := 0 }

/-- A freshly constructed `Resolver`. -/
def mkResolver : Resolver :=
  { inputAngle := 0, sinOutput := 0, cosOutput := 0, rotation := 0 }

/-- A freshly constructed `Cam` with the given profile. -/
def mkCam (profile : ℝ → ℝ) : Cam :=
  { profile := profile, inputAngle := 0, output := 0, rotation := 0 }

/-- Profile of `this.camP`: total straight run, independent of the input. -/
def camPprofile : ℝ → ℝ := fun _ => getTotalStraightRun

/-- Profile of `this.camJ`: torpedo advance `Z * (1 - cos G)`. -/
def camJprofile : ℝ → ℝ := fun g => TURN_RADIUS * (1 - Real.cos (degRad g))

/-- Profile of `this.camUs`: semi-pseudo run, arc length minus chord length. -/
def camUsProfile : ℝ → ℝ := fun g =>
  TURN_RADIUS * (|g| * Real.pi / 180) - 2 * TURN_RADIUS * Real.sin ((|g| * Real.pi / 180) / 2)

/-- The state established by the `TDCMarkIII` constructor. -/
def mkEngine : EState :=
  { inputs := { ownCourse := 0, ownSpeed := 0, targetBearing := 0, targetRange := 0
                targetCourse := 0, targetSpeed := 0 }
    kin := { ownX := 0, ownY := 0, targetX := 0, targetY := 0, elapsedTime := 0 }
    gyroAngle := 0
    servoVelocity := 0
    diff7 := mkDifferential false
    diff33 := mkDifferential false
    diff28 := mkDifferential true
    diff29 := mkDifferential true
    diff22FA := mkDifferential true
    resolver13 := mkResolver
    resolver34 := mkResolver
    resolver2FA := mkResolver
    int20 := mkIntegrator
    int25 := mkIntegrator
    int14 := mkIntegrator
    int15 := mkIntegrator
    int35 := mkIntegrator
    int36 := mkIntegrator
    camP := mkCam camPprofile
    camJ := mkCam camJprofile
    camUs := mkCam camUsProfile
    outputs := { gyroAngle := 0, relativeBearing := 0, targetAngle := 0, presentBearing := 0
                 presentRange := 0, torpedoRun := 0, runTime := 0, trackAngle := 0
                 isSolved := false, solverError := 999 } }

/-- First loop of `normalizeAngle`: `while (angle > 180) angle -= 360`. -/
def normLoopDown (a : ℝ) : ℝ :=
  if h : a > 180 then normLoopDown (a - 360) else a
termination_by (⌈(a - 180) / 360⌉).toNat
decreasing_by
  have h1 : (0 : ℝ) < (a - 180) / 360 := by
    have : (0 : ℝ) < a - 180 := by linarith
    positivity
  have h2 : 0 < ⌈(a - 180) / 360⌉ := Int.ceil_pos.mpr h1
  have h3 : (a - 360 - 180) / 360 = (a - 180) / 360 - 1 := by ring
  have h4 : ⌈(a - 360 - 180) / 360⌉ = ⌈(a - 180) / 360⌉ - 1 := by
    rw [h3]
    exact_mod_cast Int.ceil_sub_int ((a - 180) / 360) 1
  rw [h4]
  omega

/-- Second loop of `normalizeAngle`: `while (angle < -180) angle += 360`. -/
def normLoopUp (a : ℝ) : ℝ :=
  if h : a < -180 then normLoopUp (a + 360) else a
termination_by (⌈(-180 - a) / 360⌉).toNat
decreasing_by
  have h1 : (0 : ℝ) < (-180 - a) / 360 := by
    have : (0 : ℝ) < -180 - a := by linarith
    positivity
  have h2 : 0 < ⌈(-180 - a) / 360⌉ := Int.ceil_pos.mpr h1
  have h3 : (-180 - (a + 360)) / 360 = (-180 - a) / 360 - 1 := by ring
  have h4 : ⌈(-180 - (a + 360)) / 360⌉ = ⌈(-180 - a) / 360⌉ - 1 := by
    rw [h3]
    exact_mod_cast Int.ceil_sub_int ((-180 - a) / 360) 1
  rw [h4]
  omega

/-- The source's `normalizeAngle`: the two `while` loops run in sequence. -/
def normalizeAngle (a : ℝ) : ℝ := normLoopUp (normLoopDown a)

theorem normLoopDown_of_le {a : ℝ} (h : a ≤ 180) : normLoopDown a = a := by
  rw [normLoopDown]
  simp [not_lt.mpr h]

theorem normLoopUp_of_le {a : ℝ} (h : -180 ≤ a) : normLoopUp a = a := by
  rw [normLoopUp]
  simp [not_lt.mpr h]

/-- On arguments already in range, `normalizeAngle` is the identity. -/
theorem normalizeAngle_eq_self {a : ℝ} (h1 : -180 ≤ a) (h2 : a ≤ 180) :
    normalizeAngle a = a := by
  unfold normalizeAngle
  rw [normLoopDown_of_le h2, normLoopUp_of_le h1]

/-- The `initialize` method of the engine (`TDCMarkIII.prototype.initialize`,
first document). -/
def initializeEngine (s : EState) : EState :=
  let bearingRad := degRad s.inputs.targetBearing
  let relBearing := normalizeAngle (s.inputs.targetBearing - s.inputs.ownCourse)
  let gyro0 := relBearing * 0.8
  { s with
    kin := { ownX := 0, ownY := 0
             targetX := s.inputs.targetRange * Real.sin bearingRad
             targetY := s.inputs.targetRange * Real.cos bearingRad
             elapsedTime := 0 }
    int20 := s.int20.reset
    int25 := s.int25.reset
    int14 := s.int14.reset
    int15 := s.int15.reset
    int35 := s.int35.reset
    int36 := s.int36.reset
    gyroAngle := max (-90) (min 90 gyro0)
    servoVelocity := 0
    outputs := { s.outputs with isSolved := false } }

/-- `TDCMarkIII.prototype.updatePositions`. -/
def updatePositions (dt : ℝ) (s : EState) : EState :=
  let ownCourseRad := degRad s.inputs.ownCourse
  let ownSpeedYps := s.inputs.ownSpeed * KNOTS_TO_YPS
  let targetCourseRad := degRad s.inputs.targetCourse
  let targetSpeedYps := s.inputs.targetSpeed * KNOTS_TO_YPS
  { s with
    kin := { ownX := s.kin.ownX + ownSpeedYps * Real.sin ownCourseRad * dt
             ownY := s.kin.ownY + ownSpeedYps * Real.cos ownCourseRad * dt
             targetX := s.kin.targetX + targetSpeedYps * Real.sin targetCourseRad * dt
             targetY := s.kin.targetY + targetSpeedYps * Real.cos targetCourseRad * dt
             elapsedTime := s.kin.elapsedTime + dt } }

/-- `TDCMarkIII.prototype.calculatePresentGeometry`. -/
def calculatePresentGeometry (s : EState) : EState :=
  let dx := s.kin.targetX - s.kin.ownX
  let dy := s.kin.targetY - s.kin.ownY
  let b := atan2 dx dy * 180 / Real.pi
  { s with
    outputs := { s.outputs with
                 presentRange := Real.sqrt (dx * dx + dy * dy)
                 presentBearing := if b < 0 then b + 360 else b } }

/-- `TDCMarkIII.prototype.runPositionKeeper`. -/
def runPositionKeeper (dt : ℝ) (s : EState) : EState :=
  let So := s.inputs.ownSpeed * KNOTS_TO_YPS
  let Sp := s.inputs.targetSpeed * KNOTS_TO_YPS
  let B := s.outputs.presentBearing
  let Co := s.inputs.ownCourse
  let C := s.inputs.targetCourse
  let diff7 := s.diff7.update B Co
  let relativeBearing := normalizeAngle diff7.output
  let diff33 := s.diff33.update (B + 180) C
  let targetAngle := normalizeAngle diff33.output
  let resolver13 := s.resolver13.update relativeBearing
  let resolver34 := s.resolver34.update targetAngle
  let int20 := s.int20.update 1 So dt
  let int25 := s.int25.update 1 Sp dt
  let int14 := s.int14.update resolver13.sinOutput So dt
  let int15 := s.int15.update resolver13.cosOutput So dt
  let int35 := s.int35.update resolver34.sinOutput Sp dt
  let int36 := s.int36.update resolver34.cosOutput Sp dt
  let diff28 := s.diff28.update int14.accumulated int35.accumulated
  let diff29 := s.diff29.update int15.accumulated int36.accumulated
  { s with
    diff7 := diff7, diff33 := diff33, diff28 := diff28, diff29 := diff29
    resolver13 := resolver13, resolver34 := resolver34
    int20 := int20, int25 := int25, int14 := int14, int15 := int15
    int35 := int35, int36 := int36
    outputs := { s.outputs with
                 relativeBearing := relativeBearing
                 targetAngle := targetAngle } }

/-- Result record of the solver's `computeError` closure. -/
structure ErrOut where
  errorXVII : ℝ
  errorXVIII : ℝ
  H : ℝ
  impactAngle : ℝ
  J : ℝ
  Us : ℝ

/-- The `computeError` closure inside `runAngleSolver` (first document,
lines 415-470), as a function of the geometry it captures: present range
`R`, relative bearing `Br`, target angle `A`, target speed `S` in yards
per second, and the trial gyro angle `testGyro` in degrees. -/
def computeError (R Br A Sp testGyro : ℝ) : ErrOut :=
  let torpedoSpeedYps := TORPEDO_SPEED * KNOTS_TO_YPS
  let G_rad := degRad testGyro
  let G_minus_Br := testGyro - Br
  let G_minus_Br_rad := degRad G_minus_Br
  let sin_G_minus_Br := Real.sin G_minus_Br_rad
  let cos_G_minus_Br := Real.cos G_minus_Br_rad
  let PM := getTotalStraightRun
  let Z := TURN_RADIUS
  let arcLength := Z * |G_rad|
  let straightPortionCovered := PM * Real.cos G_rad + Z * Real.sin |G_rad|
  let finalRun := max 0 (R - straightPortionCovered)
  let torpedoPath := PM + arcLength + finalRun
  let estRunTime := torpedoPath / torpedoSpeedYps
  let H := Sp * estRunTime
  let I := A + G_minus_Br
  let I_rad := degRad I
  let sinI := Real.sin I_rad
  let cosI := Real.cos I_rad
  let J := Z * (1 - Real.cos G_rad)
  let chordLength := 2 * Z * Real.sin (|G_rad| / 2)
  let Us := arcLength - chordLength
  { errorXVII := R * cos_G_minus_Br - H * cosI - Us - PM * Real.cos G_rad
    errorXVIII := R * sin_G_minus_Br - H * sinI - J - PM * Real.sin G_rad
    H := H
    impactAngle := I
    J := J
    Us := Us }

/-- Next value of the solved flag (the hysteresis block of `runAngleSolver`):
given the previous flag, the magnitude `|errorXVIII|` and the two thresholds. -/
def solvedNext (prev : Bool) (absErr solveThreshold unsolvThreshold : ℝ) : Bool :=
  if prev then (if absErr > unsolvThreshold then false else true)
  else (if absErr < solveThreshold then true else prev)

/-- Target servo velocity (the branch on the finite-difference derivative in
`runAngleSolver`, lines 535-550): `e` is `errorXVIII`, `d` the symmetric
finite-difference derivative, `mult` the servo speed multiplier. -/
def servoTargetVelocity (e d mult : ℝ) : ℝ :=
  if |d| > 0.1 then
    let idealStep := -e / d
    let tv := Real.sign idealStep * gyroServoRate * mult
    let errorMag := |e|
    if errorMag < 50 then tv * (errorMag / 50) else tv
  else
    -Real.sign e * gyroServoRate * 0.3 * mult

/-- `TDCMarkIII.prototype.runAngleSolver` (first document). -/
def runAngleSolver (dt : ℝ) (s : EState) : EState :=
  let R := s.outputs.presentRange
  let Br := s.outputs.relativeBearing
  let Sp := s.inputs.targetSpeed * KNOTS_TO_YPS
  let torpedoSpeedYps := TORPEDO_SPEED * KNOTS_TO_YPS
  let A := s.outputs.targetAngle
  let errors := computeError R Br A Sp s.gyroAngle
  let errorXVII := errors.errorXVII
  let errorXVIII := errors.errorXVIII
  let resolver2FA := s.resolver2FA.update (s.gyroAngle - Br)
  let camP := s.camP.update s.gyroAngle
  let camJ := s.camJ.update s.gyroAngle
  let camUs := s.camUs.update s.gyroAngle
  let solverError := Real.sqrt (errorXVII * errorXVII + errorXVIII * errorXVIII)
  let solveThreshold := max 10 (R * 0.005)
  let unsolvThreshold := solveThreshold * 10
  let isSolved := solvedNext s.outputs.isSolved |errorXVIII| solveThreshold unsolvThreshold
  let servoSpeedMultiplier : ℝ := if isSolved then 0.3 else 1
  let afterServo :=
    if isSolved = false ∨ |errorXVIII| > solveThreshold * 0.5 then
      let delta : ℝ := 0.5
      let errPlus := computeError R Br A Sp (s.gyroAngle + delta)
      let errMinus := computeError R Br A Sp (s.gyroAngle - delta)
      let dErrXVIII_dG := (errPlus.errorXVIII - errMinus.errorXVIII) / (2 * delta)
      let targetVelocity := servoTargetVelocity errorXVIII dErrXVIII_dG servoSpeedMultiplier
      let servoVelocity := s.servoVelocity * servoInertia + targetVelocity * (1 - servoInertia)
      let gyroAngle := max (-90) (min 90 (s.gyroAngle + servoVelocity * dt))
      (gyroAngle, servoVelocity)
    else
      (s.gyroAngle, s.servoVelocity * 0.8)
  let gyroAngle := afterServo.1
  let servoVelocity := afterServo.2
  let diff22FA := s.diff22FA.update gyroAngle 0
  let torpedoHeading := s.inputs.ownCourse + gyroAngle
  let trackAngle0 := |normalizeAngle (torpedoHeading - s.inputs.targetCourse + 180)|
  let trackAngle := if trackAngle0 > 180 then 360 - trackAngle0 else trackAngle0
  let G_minus_Br_rad := degRad (gyroAngle - Br)
  let torpedoRun := R / max 0.5 (Real.cos G_minus_Br_rad)
  let runTime := torpedoRun / torpedoSpeedYps
  { s with
    gyroAngle := gyroAngle
    servoVelocity := servoVelocity
    resolver2FA := resolver2FA
    camP := camP, camJ := camJ, camUs := camUs
    diff22FA := diff22FA
    outputs := { s.outputs with
                 gyroAngle := gyroAngle
                 solverError := solverError
                 isSolved := isSolved
                 trackAngle := trackAngle
                 torpedoRun := torpedoRun
                 runTime := runTime } }

/-- `TDCMarkIII.prototype.step`. -/
def step (dt : ℝ) (s : EState) : EState :=
  runAngleSolver dt (runPositionKeeper dt (calculatePresentGeometry (updatePositions dt s)))

/-- The part of `step` that runs before the Angle Solver. -/
def preSolver (dt : ℝ) (s : EState) : EState :=
  runPositionKeeper dt (calculatePresentGeometry (updatePositions dt s))

theorem step_eq_preSolver (dt : ℝ) (s : EState) :
    step dt s = runAngleSolver dt (preSolver dt s) := rfl

/-- An argument to `setInputs`: any subset of the six input fields
(a JavaScript object literal with some of the input keys). -/
structure InputPatch where
  ownCourse : Option ℝ := none
  ownSpeed : Option ℝ := none
  targetBearing : Option ℝ := none
  targetRange : Option ℝ := none
  targetCourse : Option ℝ := none
  targetSpeed : Option ℝ := none

/-- `Object.assign(this.inputs, inputs)`: fields present in the patch
overwrite, absent fields are kept. -/
def applyPatch (i : Inputs) (p : InputPatch) : Inputs :=
  { ownCourse := p.ownCourse.getD i.ownCourse
    ownSpeed := p.ownSpeed.getD i.ownSpeed
    targetBearing := p.targetBearing.getD i.targetBearing
    targetRange := p.targetRange.getD i.targetRange
    targetCourse := p.targetCourse.getD i.targetCourse
    targetSpeed := p.targetSpeed.getD i.targetSpeed }

/-- `TDCMarkIII.prototype.setInputs`. -/
def setInputs (s : EState) (p : InputPatch) : EState :=
  { s with inputs := applyPatch s.inputs p }

/-!
Spec-side formulation of the Angle Solver's governing relations, written
from the specification's words (section 4.3) for comparison against
`computeError`.  The specification leaves the "straight run remaining
after the turn to the intercept point" unspecified beyond its name; it is
taken, as in the source, to be the present range less the straight
portion already covered, floored at zero.
-/

/-- Straight-run distance `D`: absolute tube base line plus reach
("|tube base line| + reach = 125 yd"). -/
def specD : ℝ := |(50 : ℝ)| + 75

/-- Turn radius `Z = 130 yd`. -/
def specZ : ℝ := 130

/-- Remaining straight run after the turn, to the intercept point. -/
def specRemainingRun (R G : ℝ) : ℝ :=
  max 0 (R - (specD * Real.cos (degRad G) + specZ * Real.sin |degRad G|))

/-- Estimated run time: (straight run + turn-arc length `Z * |G|` in radians
+ remaining straight run) divided by torpedo speed. -/
def specRunTime (R G : ℝ) : ℝ :=
  (specD + specZ * |degRad G| + specRemainingRun R G) / (TORPEDO_SPEED * KNOTS_TO_YPS)

/-- Target travel `H` = target speed times estimated run time. -/
def specH (R Sp G : ℝ) : ℝ := Sp * specRunTime R G

/-- Impact angle `I` = target angle + (G - Br). -/
def specImpact (A Br G : ℝ) : ℝ := A + (G - Br)

/-- Transfer `J = Z * (1 - cos G)`. -/
def specJ (G : ℝ) : ℝ := specZ * (1 - Real.cos (degRad G))

/-- Pseudo-run `Us = Z * |G|_rad - 2 * Z * sin (|G|_rad / 2)`. -/
def specUs (G : ℝ) : ℝ := specZ * |degRad G| - 2 * specZ * Real.sin (|degRad G| / 2)

/-- Error XVII = `R cos (G - Br) - H cos I - Us - D cos G`. -/
def specErrorXVII (R Br A Sp G : ℝ) : ℝ :=
  R * Real.cos (degRad (G - Br)) - specH R Sp G * Real.cos (degRad (specImpact A Br G))
    - specUs G - specD * Real.cos (degRad G)

/-- Error XVIII = `R sin (G - Br) - H sin I - J - D sin G`. -/
def specErrorXVIII (R Br A Sp G : ℝ) : ℝ :=
  R * Real.sin (degRad (G - Br)) - specH R Sp G * Real.sin (degRad (specImpact A Br G))
    - specJ G - specD * Real.sin (degRad G)

theorem abs_degRad (G : ℝ) : |degRad G| = |G| * Real.pi / 180 := by
  unfold degRad
  rw [abs_div, abs_mul, abs_of_nonneg Real.pi_pos.le, abs_of_nonneg (by norm_num : (0:ℝ) ≤ 180)]

/-- C1.  At every simulation step, the Angle Solver's residuals evaluated at a
trial gyro angle `G` equal the governing relations of the specification:
Error XVII = `R cos (G - Br) - H cos I - Us - D cos G` and Error XVIII =
`R sin (G - Br) - H sin I - J - D sin G`, with `D = |tube base line| + reach
= 125`, `H` = target speed times estimated run time, run time = (`D` +
turn-arc length `Z * |G|` in radians + remaining straight run) / torpedo
speed, `I` = target angle + (G - Br), `J = Z (1 - cos G)`,
`Us = Z |G| - 2 Z sin (|G| / 2)` and `Z = 130`. -/
theorem computeError_matches_spec (R Br A Sp G : ℝ) :
    (computeError R Br A Sp G).errorXVII = specErrorXVII R Br A Sp G ∧
    (computeError R Br A Sp G).errorXVIII = specErrorXVIII R Br A Sp G ∧
    specD = 125 ∧ specZ = TURN_RADIUS := by
  refine ⟨?_, ?_, by norm_num [specD], rfl⟩ <;>
    simp only [computeError, specErrorXVII, specErrorXVIII, specH, specRunTime,
      specRemainingRun, specImpact, specJ, specUs, specD, specZ,
      getTotalStraightRun, TUBE_BASE_LINE, REACH, TURN_RADIUS]

/-- The `errorXVIII` residual that the Angle Solver evaluates at the current
gyro angle during `step dt s` (after the geometry updates of the same step). -/
def stepErrorXVIII (dt : ℝ) (s : EState) : ℝ :=
  let t := preSolver dt s
  (computeError t.outputs.presentRange t.outputs.relativeBearing t.outputs.targetAngle
    (t.inputs.targetSpeed * KNOTS_TO_YPS) t.gyroAngle).errorXVIII

/-- The solve threshold used during `step dt s`:
`Math.max(10, R * 0.005)` at the step's present range. -/
def stepSolveThreshold (dt : ℝ) (s : EState) : ℝ :=
  max 10 ((preSolver dt s).outputs.presentRange * 0.005)

theorem preSolver_isSolved (dt : ℝ) (s : EState) :
    (preSolver dt s).outputs.isSolved = s.outputs.isSolved := rfl

theorem runAngleSolver_isSolved (dt : ℝ) (s : EState) :
    (runAngleSolver dt s).outputs.isSolved =
      solvedNext s.outputs.isSolved
        |(computeError s.outputs.presentRange s.outputs.relativeBearing s.outputs.targetAngle
            (s.inputs.targetSpeed * KNOTS_TO_YPS) s.gyroAngle).errorXVIII|
        (max 10 (s.outputs.presentRange * 0.005))
        (max 10 (s.outputs.presentRange * 0.005) * 10) := rfl

/-- C2.  The solved flag follows a two-state hysteresis machine driven by
Error XVIII: when the flag is false, a step sets it true exactly when
`|ErrorXVIII| < solveThreshold` with `solveThreshold = max 10 (0.005 * R)`
at the current range `R`; when the flag is true, a step clears it exactly
when `|ErrorXVIII| > 10 * solveThreshold`; no other transition of the flag
occurs inside `step` (the flag is a function of exactly the previous flag,
the residual, and the thresholds).  Consequently, once solved is true, a
single-step transient whose residual stays under the unsolve threshold
never clears the flag. -/
theorem solved_flag_hysteresis (s : EState) (dt : ℝ) :
    (step dt s).outputs.isSolved =
      solvedNext s.outputs.isSolved |stepErrorXVIII dt s| (stepSolveThreshold dt s)
        (10 * stepSolveThreshold dt s) ∧
    (s.outputs.isSolved = false →
      ((step dt s).outputs.isSolved = true ↔
        |stepErrorXVIII dt s| < stepSolveThreshold dt s)) ∧
    (s.outputs.isSolved = true →
      ((step dt s).outputs.isSolved = false ↔
        |stepErrorXVIII dt s| > 10 * stepSolveThreshold dt s)) ∧
    (s.outputs.isSolved = true → |stepErrorXVIII dt s| ≤ 10 * stepSolveThreshold dt s →
      (step dt s).outputs.isSolved = true) := by
  have hmain : (step dt s).outputs.isSolved =
      solvedNext s.outputs.isSolved |stepErrorXVIII dt s| (stepSolveThreshold dt s)
        (10 * stepSolveThreshold dt s) := by
    rw [step_eq_preSolver, runAngleSolver_isSolved, preSolver_isSolved]
    rw [mul_comm (max 10 ((preSolver dt s).outputs.presentRange * 0.005)) 10]
    rfl
  refine ⟨hmain, ?_, ?_, ?_⟩
  · intro hprev
    rw [hmain, hprev]
    unfold solvedNext
    by_cases h : |stepErrorXVIII dt s| < stepSolveThreshold dt s <;> simp [h]
  · intro hprev
    rw [hmain, hprev]
    unfold solvedNext
    by_cases h : |stepErrorXVIII dt s| > 10 * stepSolveThreshold dt s <;> simp [h]
  · intro hprev hsmall
    rw [hmain, hprev]
    unfold solvedNext
    simp [not_lt.mpr, hsmall.not_lt]

theorem normalizeAngle_zero : normalizeAngle 0 = 0 :=
  normalizeAngle_eq_self (by norm_num) (by norm_num)

theorem normalizeAngle_on180 : normalizeAngle 180 = 180 :=
  normalizeAngle_eq_self (by norm_num) (by norm_num)

/-- On the all-zero scenario the solver's residual vanishes, whatever the
previous outputs were. -/
theorem stepErrorXVIII_static (o : Outputs) :
    stepErrorXVIII 1 { mkEngine with outputs := o } = 0 := by
  simp only [stepErrorXVIII, preSolver, runPositionKeeper, calculatePresentGeometry,
    updatePositions, computeError, mkEngine, degRad, atan2, Differential.update,
    Resolver.update, Integrator.update, mkDifferential, mkIntegrator, mkResolver, mkCam,
    KNOTS_TO_YPS, TORPEDO_SPEED, getTotalStraightRun, TUBE_BASE_LINE, REACH, TURN_RADIUS]
  norm_num [normalizeAngle_zero, normalizeAngle_on180, Real.arctan_zero]

/-- On the all-zero scenario the solve threshold is exactly 10. -/
theorem stepSolveThreshold_static (o : Outputs) :
    stepSolveThreshold 1 { mkEngine with outputs := o } = 10 := by
  simp only [stepSolveThreshold, preSolver, runPositionKeeper, calculatePresentGeometry,
    updatePositions, mkEngine, degRad, atan2, Differential.update,
    Resolver.update, Integrator.update, mkDifferential, mkIntegrator, mkResolver, mkCam,
    KNOTS_TO_YPS]
  norm_num

/-- An engine state that is already solved, for exercising the hysteresis. -/
def solvedStatic : EState :=
  { mkEngine with outputs := { mkEngine.outputs with isSolved := true } }

/-- Witness for C2: the hysteresis theorem applied at the fresh engine
(hunting) and at an already-solved state whose residual (zero) stays under
the unsolve threshold, so the flag survives the step. -/
theorem solved_flag_hysteresis_witness :
    (((step 1 mkEngine).outputs.isSolved = true ↔
        |stepErrorXVIII 1 mkEngine| < stepSolveThreshold 1 mkEngine) ∧
      (step 1 solvedStatic).outputs.isSolved = true) := by
  constructor
  · exact (solved_flag_hysteresis mkEngine 1).2.1 rfl
  · refine (solved_flag_hysteresis solvedStatic 1).2.2.2 rfl ?_
    have h1 : stepErrorXVIII 1 solvedStatic = 0 := stepErrorXVIII_static _
    have h2 : stepSolveThreshold 1 solvedStatic = 10 := stepSolveThreshold_static _
    rw [h1, h2]
    norm_num

/-- States reachable through the engine's public interface: the constructor,
then any sequence of `setInputs`, `initialize` and `step` calls with
arbitrary real inputs and arbitrary `dt`. -/
inductive Reachable : EState → Prop
  | init : Reachable mkEngine
  | set {s : EState} (p : InputPatch) : Reachable s → Reachable (setInputs s p)
  | reinit {s : EState} : Reachable s → Reachable (initializeEngine s)
  | stepped {s : EState} (dt : ℝ) : Reachable s → Reachable (step dt s)

theorem runAngleSolver_outputs_gyro (dt : ℝ) (s : EState) :
    (runAngleSolver dt s).outputs.gyroAngle = (runAngleSolver dt s).gyroAngle := rfl

theorem runAngleSolver_gyro_cases (dt : ℝ) (s : EState) :
    (runAngleSolver dt s).gyroAngle = s.gyroAngle ∨
    ∃ x, (runAngleSolver dt s).gyroAngle = max (-90) (min 90 x) := by
  unfold runAngleSolver
  dsimp only
  rw [apply_ite Prod.fst]
  split_ifs <;> first
    | (left; rfl)
    | (right; exact ⟨_, rfl⟩)

theorem gyro_invariant : ∀ s : EState, Reachable s →
    (-90 ≤ s.gyroAngle ∧ s.gyroAngle ≤ 90) ∧
    (-90 ≤ s.outputs.gyroAngle ∧ s.outputs.gyroAngle ≤ 90) := by
  intro s h
  induction h with
  | init => norm_num [mkEngine]
  | set p _ ih => exact ih
  | reinit _ ih =>
    refine ⟨⟨le_max_left _ _, max_le (by norm_num) (min_le_left _ _)⟩, ih.2⟩
  | @stepped t dt _ ih =>
    have hpre : (preSolver dt t).gyroAngle = t.gyroAngle := rfl
    have hgyro : -90 ≤ (step dt t).gyroAngle ∧ (step dt t).gyroAngle ≤ 90 := by
      rw [step_eq_preSolver]
      rcases runAngleSolver_gyro_cases dt (preSolver dt t) with hc | ⟨x, hc⟩
      · rw [hc, hpre]
        exact ih.1
      · rw [hc]
        exact ⟨le_max_left _ _, max_le (by norm_num) (min_le_left _ _)⟩
    refine ⟨hgyro, ?_⟩
    rw [step_eq_preSolver, runAngleSolver_outputs_gyro, ← step_eq_preSolver]
    exact hgyro

/-- C3.  For every sequence of `setInputs`, `initialize` and `step dt` calls
with any real inputs and any `dt`, the published gyro angle
(`outputs.gyroAngle`) lies in `[-90, 90]` after every call (in particular
after every `initialize` and after every `step`). -/
theorem gyro_output_clamped (s : EState) (h : Reachable s) :
    -90 ≤ s.outputs.gyroAngle ∧ s.outputs.gyroAngle ≤ 90 :=
  (gyro_invariant s h).2

/-- Witness for C3: a concrete reachable state (constructor, `initialize`,
one `step`) at which the clamp bounds are produced by the theorem. -/
theorem gyro_output_clamped_witness :
    -90 ≤ (step 1 (initializeEngine mkEngine)).outputs.gyroAngle ∧
    (step 1 (initializeEngine mkEngine)).outputs.gyroAngle ≤ 90 :=
  gyro_output_clamped _ (Reachable.stepped 1 (Reachable.reinit Reachable.init))

/-- C7.  In every servo update the Newton quotient `-errorXVIII / d` is
computed only when the symmetric finite-difference derivative `d` satisfies
`|d| > 0.1`; when `|d| ≤ 0.1` the target velocity is instead the fixed-sign
proportional value `-sign errorXVIII * 0.3 * servo rate * multiplier`, so the
quotient's denominator is always bounded away from zero (`|d| > 1/10`). -/
theorem servo_newton_guard (e d mult : ℝ) :
    (|d| ≤ 0.1 →
      servoTargetVelocity e d mult = -Real.sign e * gyroServoRate * 0.3 * mult) ∧
    (|d| > 0.1 →
      (1 / 10 : ℝ) < |d| ∧
      servoTargetVelocity e d mult =
        (if |e| < 50 then Real.sign (-e / d) * gyroServoRate * mult * (|e| / 50)
         else Real.sign (-e / d) * gyroServoRate * mult)) := by
  constructor
  · intro h
    unfold servoTargetVelocity
    rw [if_neg (by simpa using h.not_lt)]
  · intro h
    refine ⟨by linarith [h], ?_⟩
    unfold servoTargetVelocity
    rw [if_pos h]

/-- Witness for C7: the guard theorem at a vanishing derivative (`d = 0`,
proportional fallback) and at `d = 1` (Newton branch). -/
theorem servo_newton_guard_witness :
    servoTargetVelocity 1 0 1 = -Real.sign 1 * gyroServoRate * 0.3 * 1 ∧
    ((1 / 10 : ℝ) < |(1 : ℝ)| ∧
      servoTargetVelocity 1 1 1 =
        (if |(1 : ℝ)| < 50 then Real.sign (-1 / 1) * gyroServoRate * 1 * (|(1 : ℝ)| / 50)
         else Real.sign (-1 / 1) * gyroServoRate * 1)) :=
  ⟨(servo_newton_guard 1 0 1).1 (by norm_num),
   (servo_newton_guard 1 1 1).2 (by norm_num)⟩

/-- C6.  Every call to `initialize` seeds the gyro-angle estimate toward the
target's relative bearing and not to zero — the estimate becomes
`0.8 * normalizeAngle (targetBearing - ownCourse)` clamped to `[-90, 90]` —
zeroes the accumulated value (and accumulated display rotations) of all six
Integrators, zeroes the servo velocity, and sets the solved flag to false;
the Integrators are the only mechanical primitives with cross-step memory in
the design's data model, so every stateful primitive is reset. -/
theorem initialize_resets_state (s : EState) :
    (initializeEngine s).gyroAngle =
      max (-90) (min 90
        (0.8 * normalizeAngle (s.inputs.targetBearing - s.inputs.ownCourse))) ∧
    (initializeEngine s).int20.accumulated = 0 ∧
    (initializeEngine s).int25.accumulated = 0 ∧
    (initializeEngine s).int14.accumulated = 0 ∧
    (initializeEngine s).int15.accumulated = 0 ∧
    (initializeEngine s).int35.accumulated = 0 ∧
    (initializeEngine s).int36.accumulated = 0 ∧
    (initializeEngine s).int20.discRotation = 0 ∧
    (initializeEngine s).int20.outputRotation = 0 ∧
    (initializeEngine s).servoVelocity = 0 ∧
    (initializeEngine s).outputs.isSolved = false := by
  refine ⟨?_, rfl, rfl, rfl, rfl, rfl, rfl, rfl, rfl, rfl, rfl⟩
  show max (-90) (min 90 (normalizeAngle (s.inputs.targetBearing - s.inputs.ownCourse) * 0.8)) = _
  rw [mul_comm]

/-- C10.  `setInputs` copies onto the engine's input record exactly the
fields present in its argument, leaves every input field absent from the
argument unchanged, and modifies no other engine state: positions,
integrator accumulators, gyro and servo solver state, every mechanical
component, and the outputs are untouched. -/
theorem setInputs_frame (s : EState) (p : InputPatch) :
    (setInputs s p).inputs.ownCourse = p.ownCourse.getD s.inputs.ownCourse ∧
    (setInputs s p).inputs.ownSpeed = p.ownSpeed.getD s.inputs.ownSpeed ∧
    (setInputs s p).inputs.targetBearing = p.targetBearing.getD s.inputs.targetBearing ∧
    (setInputs s p).inputs.targetRange = p.targetRange.getD s.inputs.targetRange ∧
    (setInputs s p).inputs.targetCourse = p.targetCourse.getD s.inputs.targetCourse ∧
    (setInputs s p).inputs.targetSpeed = p.targetSpeed.getD s.inputs.targetSpeed ∧
    (setInputs s p).kin = s.kin ∧
    (setInputs s p).gyroAngle = s.gyroAngle ∧
    (setInputs s p).servoVelocity = s.servoVelocity ∧
    (setInputs s p).diff7 = s.diff7 ∧
    (setInputs s p).diff33 = s.diff33 ∧
    (setInputs s p).diff28 = s.diff28 ∧
    (setInputs s p).diff29 = s.diff29 ∧
    (setInputs s p).diff22FA = s.diff22FA ∧
    (setInputs s p).resolver13 = s.resolver13 ∧
    (setInputs s p).resolver34 = s.resolver34 ∧
    (setInputs s p).resolver2FA = s.resolver2FA ∧
    (setInputs s p).int20 = s.int20 ∧
    (setInputs s p).int25 = s.int25 ∧
    (setInputs s p).int14 = s.int14 ∧
    (setInputs s p).int15 = s.int15 ∧
    (setInputs s p).int35 = s.int35 ∧
    (setInputs s p).int36 = s.int36 ∧
    (setInputs s p).camP = s.camP ∧
    (setInputs s p).camJ = s.camJ ∧
    (setInputs s p).camUs = s.camUs ∧
    (setInputs s p).outputs = s.outputs := by
  repeat' constructor

/-- Rounding to the nearest integer multiple of `2048 = 2 ^ 11`.  In IEEE
double precision every representable number in the binade `[2 ^ 63, 2 ^ 64)`
is such a multiple (the unit in the last place there is `2 ^ 11`), and an
arithmetic result landing in that binade is rounded to the nearest one; this
is the semantics of the source's `angle -= 360` for angles in that binade
(no tie can arise at the offsets used below, so the ties-to-even detail of
the rounding mode is immaterial). -/
def fl63 (x : ℝ) : ℝ := 2048 * ((round (x / 2048) : ℤ) : ℝ)

/-- The first `while` loop of `normalizeAngle` with an explicit iteration
budget and with the loop body's subtraction performed in double arithmetic
(the angle stays inside the binade `[2 ^ 63, 2 ^ 64)` at the input
considered below, so `fl63` is the rounding in effect throughout): `none`
means the budget was exhausted with the loop still running. -/
def normFuelDownD : ℕ → ℝ → Option ℝ
  | 0, a => if a > 180 then none else some a
  | n + 1, a => if a > 180 then normFuelDownD n (fl63 (a - 360)) else some a

/-- At `1e19` (an exactly representable double, since `2 ^ 11` divides
`10 ^ 19`) the double subtraction of `360` rounds straight back: the true
difference is within `360 < 1024 = ulp / 2` of `1e19` itself. -/
theorem fl63_fixed_1e19 : fl63 ((10 : ℝ) ^ 19 - 360) = 10 ^ 19 := by
  unfold fl63
  have harg : ((10 : ℝ) ^ 19 - 360) / 2048 + 1 / 2 = (10 ^ 19 + 664) / 2048 := by
    ring
  have h : round (((10 : ℝ) ^ 19 - 360) / 2048) = 4882812500000000 := by
    rw [round_eq, harg, Int.floor_eq_iff]
    constructor
    · rw [le_div_iff₀ (by norm_num)]
      norm_num
    · rw [div_lt_iff₀ (by norm_num)]
      push_cast
      norm_num
  rw [h]
  norm_num

/-- C9.  The claim (and specification section 5) promises that every `step`
call is a bounded computation for any numeric input — the engine cannot
hang, and in particular the normalization loop terminates for every angle
value that can reach it.  The program breaks this promise: in IEEE double
arithmetic the loop body `angle -= 360` makes no progress once the angle's
magnitude reaches `2 ^ 62` (the unit in the last place exceeds `720`), so
the first `while` loop of `normalizeAngle` runs forever at the finite input
`1e19`.  The input is reachable because `setInputs` performs no validation:
own course `-1e19` makes the Position Keeper feed
`presentBearing - (-1e19)` into `normalizeAngle`.  With the loop body's
subtraction modelled at double precision, no iteration budget ever lets the
loop exit. -/
theorem normalizeAngle_loop_diverges (n : ℕ) :
    normFuelDownD n ((10 : ℝ) ^ 19) = none := by
  induction n with
  | zero =>
    unfold normFuelDownD
    rw [if_pos (by norm_num)]
  | succ k ih =>
    unfold normFuelDownD
    rw [if_pos (by norm_num), fl63_fixed_1e19]
    exact ih

theorem normLoopDown_le (a : ℝ) : normLoopDown a ≤ 180 := by
  induction a using normLoopDown.induct with
  | case1 a h ih =>
    rw [normLoopDown, dif_pos h]
    exact ih
  | case2 a h =>
    rw [normLoopDown, dif_neg h]
    exact not_lt.mp h

theorem normLoopUp_ge (a : ℝ) : -180 ≤ normLoopUp a := by
  induction a using normLoopUp.induct with
  | case1 a h ih =>
    rw [normLoopUp, dif_pos h]
    exact ih
  | case2 a h =>
    rw [normLoopUp, dif_neg h]
    exact not_lt.mp h

theorem normLoopUp_le {a : ℝ} (h : a ≤ 180) : normLoopUp a ≤ 180 := by
  induction a using normLoopUp.induct with
  | case1 a h1 ih =>
    rw [normLoopUp, dif_pos h1]
    exact ih (by linarith)
  | case2 a h1 =>
    rw [normLoopUp, dif_neg h1]
    exact h

/-- The output of the source's `normalizeAngle` lies in `[-180, 180]`;
`-180` is attained (at inputs congruent to `180` that arrive from below). -/
theorem normalizeAngle_mem_Icc (a : ℝ) : normalizeAngle a ∈ Set.Icc (-180 : ℝ) 180 :=
  ⟨normLoopUp_ge _, normLoopUp_le (normLoopDown_le a)⟩

theorem normalizeAngle_neg180 : normalizeAngle (-180 : ℝ) = -180 :=
  normalizeAngle_eq_self (by norm_num) (by norm_num)

theorem runAngleSolver_relBearing (dt : ℝ) (s : EState) :
    (runAngleSolver dt s).outputs.relativeBearing = s.outputs.relativeBearing := rfl

theorem runAngleSolver_targetAngle (dt : ℝ) (s : EState) :
    (runAngleSolver dt s).outputs.targetAngle = s.outputs.targetAngle := rfl

theorem step_relBearing_normalized (dt : ℝ) (s : EState) :
    (step dt s).outputs.relativeBearing =
      normalizeAngle ((calculatePresentGeometry (updatePositions dt s)).diff7.update
        (calculatePresentGeometry (updatePositions dt s)).outputs.presentBearing
        s.inputs.ownCourse).output := rfl

theorem step_targetAngle_normalized (dt : ℝ) (s : EState) :
    (step dt s).outputs.targetAngle =
      normalizeAngle ((calculatePresentGeometry (updatePositions dt s)).diff33.update
        ((calculatePresentGeometry (updatePositions dt s)).outputs.presentBearing + 180)
        s.inputs.targetCourse).output := rfl

/-- C8 counterexample.  `normalizeAngle` maps `-180` to `-180`, which is not
in the claimed half-open interval `(-180, 180]`; correspondingly, a step of a
scenario with own course `180` and target dead ahead publishes a relative
bearing of exactly `-180`, outside `(-180, 180]`. -/
theorem normalizeAngle_leaves_Ioc :
    normalizeAngle (-180 : ℝ) ∉ Set.Ioc (-180 : ℝ) 180 ∧
    (step 1 (setInputs mkEngine { ownCourse := some 180 })).outputs.relativeBearing ∉
      Set.Ioc (-180 : ℝ) 180 := by
  constructor
  · rw [normalizeAngle_neg180]
    simp
  · rw [step_relBearing_normalized]
    have : ((calculatePresentGeometry
        (updatePositions 1 (setInputs mkEngine { ownCourse := some 180 }))).diff7.update
        (calculatePresentGeometry
          (updatePositions 1 (setInputs mkEngine { ownCourse := some 180 }))).outputs.presentBearing
        (setInputs mkEngine { ownCourse := some 180 }).inputs.ownCourse).output = -180 := by
      simp only [calculatePresentGeometry, updatePositions, setInputs, applyPatch, mkEngine,
        Differential.update, mkDifferential, atan2, degRad, KNOTS_TO_YPS]
      norm_num
    rw [this, normalizeAngle_neg180]
    simp

/-- C8 amended.  For every real input angle, `normalizeAngle` returns a value
in the closed interval `[-180, 180]` (the endpoint `-180` is attainable, so
the interval cannot be taken half-open), and hence the relative bearing and
the target angle published by the Position Keeper on every step lie in
`[-180, 180]`. -/
theorem normalizeAngle_range :
    (∀ a : ℝ, normalizeAngle a ∈ Set.Icc (-180 : ℝ) 180) ∧
    (∀ (dt : ℝ) (s : EState),
      (step dt s).outputs.relativeBearing ∈ Set.Icc (-180 : ℝ) 180 ∧
      (step dt s).outputs.targetAngle ∈ Set.Icc (-180 : ℝ) 180) := by
  refine ⟨normalizeAngle_mem_Icc, fun dt s => ⟨?_, ?_⟩⟩
  · rw [step_relBearing_normalized]
    exact normalizeAngle_mem_Icc _
  · rw [step_targetAngle_normalized]
    exact normalizeAngle_mem_Icc _

/-- A call through the engine's public interface. -/
inductive Op where
  | set (p : InputPatch)
  | reinit
  | stepOp (dt : ℝ)

/-- Apply one interface call to a state. -/
def applyOp : Op → EState → EState
  | .set p, s => setInputs s p
  | .reinit, s => initializeEngine s
  | .stepOp dt, s => step dt s

/-- Run a call sequence from the constructor state; the head of the list is
the most recent call. -/
def run : List Op → EState
  | [] => mkEngine
  | op :: ops => applyOp op (run ops)

/-- Mirror a `setInputs` argument left-to-right: negate own course, target
bearing and target course where present. -/
def mirrorPatch (p : InputPatch) : InputPatch :=
  { ownCourse := p.ownCourse.map Neg.neg
    ownSpeed := p.ownSpeed
    targetBearing := p.targetBearing.map Neg.neg
    targetRange := p.targetRange
    targetCourse := p.targetCourse.map Neg.neg
    targetSpeed := p.targetSpeed }

/-- Mirror an interface call. -/
def mirrorOp : Op → Op
  | .set p => .set (mirrorPatch p)
  | .reinit => .reinit
  | .stepOp dt => .stepOp dt

/-- Mirror an input record. -/
def mirrorInputs (i : Inputs) : Inputs :=
  { i with
    ownCourse := -i.ownCourse
    targetBearing := -i.targetBearing
    targetCourse := -i.targetCourse }

/-- The mirror relation on the kinematic part of two engine states: inputs
mirrored, positions reflected in the north-south axis, and equal published
present range. -/
def MirrorKin (s s' : EState) : Prop :=
  s'.inputs = mirrorInputs s.inputs ∧
  s'.kin.ownX = -s.kin.ownX ∧ s'.kin.ownY = s.kin.ownY ∧
  s'.kin.targetX = -s.kin.targetX ∧ s'.kin.targetY = s.kin.targetY ∧
  s'.kin.elapsedTime = s.kin.elapsedTime ∧
  s'.outputs.presentRange = s.outputs.presentRange

theorem mirrorKin_mk : MirrorKin mkEngine mkEngine := by
  refine ⟨?_, by norm_num [mkEngine], rfl, by norm_num [mkEngine], rfl, rfl, rfl⟩
  simp [mkEngine, mirrorInputs]

theorem mirrorKin_setInputs {s s' : EState} (h : MirrorKin s s') (p : InputPatch) :
    MirrorKin (setInputs s p) (setInputs s' (mirrorPatch p)) := by
  obtain ⟨hi, h1, h2, h3, h4, h5, h6⟩ := h
  refine ⟨?_, h1, h2, h3, h4, h5, h6⟩
  show applyPatch s'.inputs (mirrorPatch p) = mirrorInputs (applyPatch s.inputs p)
  rw [hi]
  unfold applyPatch mirrorPatch mirrorInputs
  cases p.ownCourse <;> cases p.targetBearing <;> cases p.targetCourse <;> simp

theorem degRad_neg (x : ℝ) : degRad (-x) = -degRad x := by
  unfold degRad
  ring

theorem mirrorKin_init {s s' : EState} (h : MirrorKin s s') :
    MirrorKin (initializeEngine s) (initializeEngine s') := by
  obtain ⟨hi, h1, h2, h3, h4, h5, h6⟩ := h
  refine ⟨hi, by simp [initializeEngine], rfl, ?_, ?_, rfl, h6⟩
  · show s'.inputs.targetRange * Real.sin (degRad s'.inputs.targetBearing) =
      -(s.inputs.targetRange * Real.sin (degRad s.inputs.targetBearing))
    rw [hi]
    unfold mirrorInputs
    dsimp only
    rw [degRad_neg, Real.sin_neg]
    ring
  · show s'.inputs.targetRange * Real.cos (degRad s'.inputs.targetBearing) =
      s.inputs.targetRange * Real.cos (degRad s.inputs.targetBearing)
    rw [hi]
    unfold mirrorInputs
    dsimp only
    rw [degRad_neg, Real.cos_neg]

theorem mirrorKin_updatePositions {s s' : EState} (h : MirrorKin s s') (dt : ℝ) :
    MirrorKin (updatePositions dt s) (updatePositions dt s') := by
  obtain ⟨hi, h1, h2, h3, h4, h5, h6⟩ := h
  refine ⟨hi, ?_, ?_, ?_, ?_, ?_, h6⟩ <;>
    (simp only [updatePositions, hi, mirrorInputs, h1, h2, h3, h4, h5,
        degRad_neg, Real.sin_neg, Real.cos_neg]
     try ring)

theorem mirrorKin_calcGeometry {s s' : EState} (h : MirrorKin s s') :
    MirrorKin (calculatePresentGeometry s) (calculatePresentGeometry s') := by
  obtain ⟨hi, h1, h2, h3, h4, h5, h6⟩ := h
  refine ⟨hi, h1, h2, h3, h4, h5, ?_⟩
  show Real.sqrt _ = Real.sqrt _
  rw [h1, h2, h3, h4]
  congr 1
  ring_nf

theorem mirrorKin_positionKeeper {s s' : EState} (h : MirrorKin s s') (dt : ℝ) :
    MirrorKin (runPositionKeeper dt s) (runPositionKeeper dt s') := h

theorem mirrorKin_angleSolver {s s' : EState} (h : MirrorKin s s') (dt : ℝ) :
    MirrorKin (runAngleSolver dt s) (runAngleSolver dt s') := by
  obtain ⟨hi, h1, h2, h3, h4, h5, h6⟩ := h
  have hrange : ∀ t : EState, (runAngleSolver dt t).outputs.presentRange =
      t.outputs.presentRange := fun t => rfl
  refine ⟨hi, h1, h2, h3, h4, h5, ?_⟩
  rw [hrange, hrange]
  exact h6

theorem mirrorKin_step {s s' : EState} (h : MirrorKin s s') (dt : ℝ) :
    MirrorKin (step dt s) (step dt s') :=
  mirrorKin_angleSolver
    (mirrorKin_positionKeeper
      (mirrorKin_calcGeometry (mirrorKin_updatePositions h dt)) dt) dt

theorem mirrorKin_run (ops : List Op) : MirrorKin (run ops) (run (ops.map mirrorOp)) := by
  induction ops with
  | nil => exact mirrorKin_mk
  | cons op rest ih =>
    cases op with
    | set p => exact mirrorKin_setInputs ih p
    | reinit => exact mirrorKin_init ih
    | stepOp dt => exact mirrorKin_step ih dt

/-- C5 amended.  Mirroring a scenario left-to-right (negating own course,
target bearing and target course in every `setInputs` call) and running the
same sequence of `initialize` and `step dt` calls leaves the published
present range unchanged after every call; the published gyro angle, however,
is not in general negated by the mirrored run (and hence the run time is not
in general preserved), because the transfer term `J = Z (1 - cos G)` of
Error XVIII is an even function of the gyro angle. -/
theorem mirror_preserves_presentRange (ops : List Op) :
    (run (ops.map mirrorOp)).outputs.presentRange = (run ops).outputs.presentRange :=
  (mirrorKin_run ops).2.2.2.2.2.2

/-- The Error XVIII residual the solver evaluates at the current gyro angle. -/
def angleSolverErr (s : EState) : ℝ :=
  (computeError s.outputs.presentRange s.outputs.relativeBearing s.outputs.targetAngle
    (s.inputs.targetSpeed * KNOTS_TO_YPS) s.gyroAngle).errorXVIII

/-- The symmetric finite-difference derivative of Error XVIII used by the servo. -/
def angleSolverDeriv (s : EState) : ℝ :=
  ((computeError s.outputs.presentRange s.outputs.relativeBearing s.outputs.targetAngle
      (s.inputs.targetSpeed * KNOTS_TO_YPS) (s.gyroAngle + 0.5)).errorXVIII -
   (computeError s.outputs.presentRange s.outputs.relativeBearing s.outputs.targetAngle
      (s.inputs.targetSpeed * KNOTS_TO_YPS) (s.gyroAngle - 0.5)).errorXVIII) / (2 * 0.5)

/-- When the solver enters a step unsolved and the residual stays at or above
the solve threshold, the new gyro angle is the clamped servo integration with
full-speed multiplier. -/
theorem runAngleSolver_gyro_hunting (dt : ℝ) (s : EState)
    (hprev : s.outputs.isSolved = false)
    (hbig : ¬ |angleSolverErr s| < max 10 (s.outputs.presentRange * 0.005)) :
    (runAngleSolver dt s).outputs.gyroAngle =
      max (-90) (min 90 (s.gyroAngle +
        (s.servoVelocity * servoInertia +
          servoTargetVelocity (angleSolverErr s) (angleSolverDeriv s) 1 *
            (1 - servoInertia)) * dt)) := by
  have hsn : solvedNext s.outputs.isSolved
      |(computeError s.outputs.presentRange s.outputs.relativeBearing s.outputs.targetAngle
          (s.inputs.targetSpeed * KNOTS_TO_YPS) s.gyroAngle).errorXVIII|
      (max 10 (s.outputs.presentRange * 0.005))
      (max 10 (s.outputs.presentRange * 0.005) * 10) = false := by
    rw [hprev]
    unfold solvedNext
    unfold angleSolverErr at hbig
    simp [hbig]
  unfold runAngleSolver
  dsimp only
  rw [hsn]
  norm_num
  unfold angleSolverErr angleSolverDeriv
  norm_num

/-- Scenario used to refute exact gyro mirroring: own course `-75` degrees,
target dead north at 10 yards, everything else zero. -/
def c5patch : InputPatch :=
  { ownCourse := some (-75), targetBearing := some 0, targetRange := some 10 }

/-- The scenario's call sequence: set inputs, initialize, one one-second step. -/
def c5ops : List Op := [Op.stepOp 1, Op.reinit, Op.set c5patch]

theorem normalizeAngle_on75 : normalizeAngle (75 : ℝ) = 75 :=
  normalizeAngle_eq_self (by norm_num) (by norm_num)

theorem normalizeAngle_onNeg75 : normalizeAngle (-75 : ℝ) = -75 :=
  normalizeAngle_eq_self (by norm_num) (by norm_num)

theorem sqrt_hundred : Real.sqrt 100 = 10 := by
  rw [show (100 : ℝ) = 10 ^ 2 by norm_num]
  exact Real.sqrt_sq (by norm_num)

theorem c5orig_pre :
    (preSolver 1 (run [Op.reinit, Op.set c5patch])).outputs.presentRange = 10 ∧
    (preSolver 1 (run [Op.reinit, Op.set c5patch])).outputs.relativeBearing = 75 ∧
    (preSolver 1 (run [Op.reinit, Op.set c5patch])).outputs.targetAngle = 180 ∧
    (preSolver 1 (run [Op.reinit, Op.set c5patch])).inputs.targetSpeed = 0 ∧
    (preSolver 1 (run [Op.reinit, Op.set c5patch])).gyroAngle = 60 ∧
    (preSolver 1 (run [Op.reinit, Op.set c5patch])).outputs.isSolved = false ∧
    (preSolver 1 (run [Op.reinit, Op.set c5patch])).servoVelocity = 0 := by
  refine ⟨?_, ?_, ?_, rfl, ?_, rfl, rfl⟩ <;>
    (simp only [run, applyOp, preSolver, runPositionKeeper, calculatePresentGeometry,
      updatePositions, initializeEngine, setInputs, applyPatch, mkEngine, c5patch,
      Differential.update, Resolver.update, Integrator.update, Integrator.reset,
      mkDifferential, mkIntegrator, mkResolver, mkCam, atan2, degRad, KNOTS_TO_YPS,
      Option.getD]
     norm_num [normalizeAngle_on75, normalizeAngle_on180, sqrt_hundred,
       Real.arctan_zero, max_def, min_def])

theorem c5mirr_pre :
    (preSolver 1 (run ([Op.reinit, Op.set c5patch].map mirrorOp))).outputs.presentRange = 10 ∧
    (preSolver 1 (run ([Op.reinit, Op.set c5patch].map mirrorOp))).outputs.relativeBearing = -75 ∧
    (preSolver 1 (run ([Op.reinit, Op.set c5patch].map mirrorOp))).outputs.targetAngle = 180 ∧
    (preSolver 1 (run ([Op.reinit, Op.set c5patch].map mirrorOp))).inputs.targetSpeed = 0 ∧
    (preSolver 1 (run ([Op.reinit, Op.set c5patch].map mirrorOp))).gyroAngle = -60 ∧
    (preSolver 1 (run ([Op.reinit, Op.set c5patch].map mirrorOp))).outputs.isSolved = false ∧
    (preSolver 1 (run ([Op.reinit, Op.set c5patch].map mirrorOp))).servoVelocity = 0 := by
  refine ⟨?_, ?_, ?_, rfl, ?_, rfl, rfl⟩ <;>
    (simp only [List.map, mirrorOp, mirrorPatch, Option.map, run, applyOp, preSolver,
      runPositionKeeper, calculatePresentGeometry,
      updatePositions, initializeEngine, setInputs, applyPatch, mkEngine, c5patch,
      Differential.update, Resolver.update, Integrator.update, Integrator.reset,
      mkDifferential, mkIntegrator, mkResolver, mkCam, atan2, degRad, KNOTS_TO_YPS,
      Option.getD]
     norm_num [normalizeAngle_onNeg75, normalizeAngle_on180, sqrt_hundred,
       Real.arctan_zero, max_def, min_def])

/-- With a stationary target the Error XVIII residual reduces to its three
geometric terms. -/
theorem computeError_XVIII_S0 (R Br A G : ℝ) :
    (computeError R Br A 0 G).errorXVIII =
      R * Real.sin (degRad (G - Br)) - TURN_RADIUS * (1 - Real.cos (degRad G)) -
        getTotalStraightRun * Real.sin (degRad G) := by
  unfold computeError
  dsimp only
  ring

theorem c5orig_err_closed :
    angleSolverErr (preSolver 1 (run [Op.reinit, Op.set c5patch])) =
      -(10 * Real.sin (Real.pi / 12)) - 65 - 125 * (Real.sqrt 3 / 2) := by
  obtain ⟨h1, h2, h3, h4, h5, _, _⟩ := c5orig_pre
  unfold angleSolverErr
  rw [h1, h2, h3, h4, h5, zero_mul, computeError_XVIII_S0]
  rw [show degRad (60 - 75) = -(Real.pi / 12) from by unfold degRad; ring,
    show degRad 60 = Real.pi / 3 from by unfold degRad; ring,
    Real.sin_neg, Real.cos_pi_div_three, Real.sin_pi_div_three]
  unfold TURN_RADIUS getTotalStraightRun TUBE_BASE_LINE REACH
  norm_num

theorem c5mirr_err_closed :
    angleSolverErr (preSolver 1 (run ([Op.reinit, Op.set c5patch].map mirrorOp))) =
      10 * Real.sin (Real.pi / 12) - 65 + 125 * (Real.sqrt 3 / 2) := by
  obtain ⟨h1, h2, h3, h4, h5, _, _⟩ := c5mirr_pre
  unfold angleSolverErr
  rw [h1, h2, h3, h4, h5, zero_mul, computeError_XVIII_S0]
  rw [show degRad (-60 - -75) = Real.pi / 12 from by unfold degRad; ring,
    show degRad (-60) = -(Real.pi / 3) from by unfold degRad; ring,
    Real.sin_neg, Real.cos_neg, Real.cos_pi_div_three, Real.sin_pi_div_three]
  unfold TURN_RADIUS getTotalStraightRun TUBE_BASE_LINE REACH
  norm_num

theorem sinDiffA :
    Real.sin (-(14.5 * Real.pi / 180)) - Real.sin (-(15.5 * Real.pi / 180)) =
      2 * Real.sin (Real.pi / 360) * Real.cos (Real.pi / 12) := by
  rw [Real.sin_sub_sin,
    show (-(14.5 * Real.pi / 180) - -(15.5 * Real.pi / 180)) / 2 = Real.pi / 360 from by ring,
    show (-(14.5 * Real.pi / 180) + -(15.5 * Real.pi / 180)) / 2 = -(Real.pi / 12) from by ring,
    Real.cos_neg]

theorem sinDiffA' :
    Real.sin (15.5 * Real.pi / 180) - Real.sin (14.5 * Real.pi / 180) =
      2 * Real.sin (Real.pi / 360) * Real.cos (Real.pi / 12) := by
  rw [Real.sin_sub_sin,
    show (15.5 * Real.pi / 180 - 14.5 * Real.pi / 180) / 2 = Real.pi / 360 from by ring,
    show (15.5 * Real.pi / 180 + 14.5 * Real.pi / 180) / 2 = Real.pi / 12 from by ring]

theorem cosDiffB :
    Real.cos (59.5 * Real.pi / 180) - Real.cos (60.5 * Real.pi / 180) =
      Real.sqrt 3 * Real.sin (Real.pi / 360) := by
  rw [Real.cos_sub_cos,
    show (59.5 * Real.pi / 180 + 60.5 * Real.pi / 180) / 2 = Real.pi / 3 from by ring,
    show (59.5 * Real.pi / 180 - 60.5 * Real.pi / 180) / 2 = -(Real.pi / 360) from by ring,
    Real.sin_neg, Real.sin_pi_div_three]
  ring

theorem sinDiffC :
    Real.sin (60.5 * Real.pi / 180) - Real.sin (59.5 * Real.pi / 180) =
      Real.sin (Real.pi / 360) := by
  rw [Real.sin_sub_sin,
    show (60.5 * Real.pi / 180 - 59.5 * Real.pi / 180) / 2 = Real.pi / 360 from by ring,
    show (60.5 * Real.pi / 180 + 59.5 * Real.pi / 180) / 2 = Real.pi / 3 from by ring,
    Real.cos_pi_div_three]
  ring

theorem c5orig_deriv_closed :
    angleSolverDeriv (preSolver 1 (run [Op.reinit, Op.set c5patch])) =
      Real.sin (Real.pi / 360) *
        (20 * Real.cos (Real.pi / 12) - 130 * Real.sqrt 3 - 125) := by
  obtain ⟨h1, h2, h3, h4, h5, _, _⟩ := c5orig_pre
  unfold angleSolverDeriv
  rw [h1, h2, h3, h4, h5, zero_mul, computeError_XVIII_S0, computeError_XVIII_S0]
  rw [show (60 : ℝ) + 0.5 - 75 = -14.5 by norm_num,
    show (60 : ℝ) - 0.5 - 75 = -15.5 by norm_num,
    show degRad (-14.5) = -(14.5 * Real.pi / 180) from by unfold degRad; ring,
    show degRad (-15.5) = -(15.5 * Real.pi / 180) from by unfold degRad; ring,
    show degRad (60 + 0.5) = 60.5 * Real.pi / 180 from by unfold degRad; ring,
    show degRad (60 - 0.5) = 59.5 * Real.pi / 180 from by unfold degRad; ring]
  unfold TURN_RADIUS getTotalStraightRun TUBE_BASE_LINE REACH
  have ha := sinDiffA
  have hb := cosDiffB
  have hc := sinDiffC
  have habs : |(50 : ℝ)| = 50 := by norm_num
  rw [habs]
  linear_combination (10 : ℝ) / 1 * ha - 130 / 1 * hb - 125 / 1 * hc

theorem c5mirr_deriv_closed :
    angleSolverDeriv (preSolver 1 (run ([Op.reinit, Op.set c5patch].map mirrorOp))) =
      Real.sin (Real.pi / 360) *
        (20 * Real.cos (Real.pi / 12) + 130 * Real.sqrt 3 - 125) := by
  obtain ⟨h1, h2, h3, h4, h5, _, _⟩ := c5mirr_pre
  unfold angleSolverDeriv
  rw [h1, h2, h3, h4, h5, zero_mul, computeError_XVIII_S0, computeError_XVIII_S0]
  rw [show (-60 : ℝ) + 0.5 - -75 = 15.5 by norm_num,
    show (-60 : ℝ) - 0.5 - -75 = 14.5 by norm_num,
    show degRad 15.5 = 15.5 * Real.pi / 180 from by unfold degRad; ring,
    show degRad 14.5 = 14.5 * Real.pi / 180 from by unfold degRad; ring,
    show degRad (-60 + 0.5) = -(59.5 * Real.pi / 180) from by unfold degRad; ring,
    show degRad (-60 - 0.5) = -(60.5 * Real.pi / 180) from by unfold degRad; ring,
    Real.sin_neg, Real.sin_neg, Real.cos_neg, Real.cos_neg]
  unfold TURN_RADIUS getTotalStraightRun TUBE_BASE_LINE REACH
  have ha := sinDiffA'
  have hb := cosDiffB
  have hc := sinDiffC
  have habs : |(50 : ℝ)| = 50 := by norm_num
  rw [habs]
  linear_combination (10 : ℝ) / 1 * ha + 130 / 1 * hb - 125 / 1 * hc

theorem sqrt3_gt : (1.7 : ℝ) < Real.sqrt 3 := by
  nlinarith [Real.sq_sqrt (by norm_num : (0 : ℝ) ≤ 3), Real.sqrt_nonneg 3]

theorem sin12_nonneg : 0 ≤ Real.sin (Real.pi / 12) :=
  Real.sin_nonneg_of_nonneg_of_le_pi (by positivity)
    (by nlinarith [Real.pi_pos])

theorem cos12_nonneg : 0 ≤ Real.cos (Real.pi / 12) :=
  Real.cos_nonneg_of_mem_Icc
    ⟨by nlinarith [Real.pi_pos], by nlinarith [Real.pi_pos]⟩

theorem s360_pos : 0 < Real.sin (Real.pi / 360) :=
  Real.sin_pos_of_pos_of_lt_pi (by positivity) (by nlinarith [Real.pi_pos])

theorem s360_gt : (0.006 : ℝ) < Real.sin (Real.pi / 360) := by
  have hx1 : (0.0087 : ℝ) < Real.pi / 360 := by nlinarith [Real.pi_gt_d2]
  have hx2 : Real.pi / 360 < 0.00875 := by nlinarith [Real.pi_lt_d2]
  have hx0 : (0 : ℝ) < Real.pi / 360 := by positivity
  have hle : Real.pi / 360 ≤ 1 := by linarith
  have hcube : (Real.pi / 360) ^ 3 ≤ Real.pi / 360 := by nlinarith [sq_nonneg (Real.pi / 360)]
  have h := Real.sin_gt_sub_cube hx0 hle
  linarith

/-- The residual of the original scenario at its first step is at most -171,
so it is far below both the solve and the scaling thresholds. -/
theorem c5orig_err_bound :
    angleSolverErr (preSolver 1 (run [Op.reinit, Op.set c5patch])) ≤ -171 := by
  rw [c5orig_err_closed]
  nlinarith [sin12_nonneg, sqrt3_gt]

/-- The residual of the mirrored scenario at its first step lies in (41, ∞);
in particular it is above the solve threshold and positive. -/
theorem c5mirr_err_bound :
    41 < angleSolverErr (preSolver 1 (run ([Op.reinit, Op.set c5patch].map mirrorOp))) := by
  rw [c5mirr_err_closed]
  nlinarith [sin12_nonneg, sqrt3_gt]

theorem c5orig_deriv_bound :
    angleSolverDeriv (preSolver 1 (run [Op.reinit, Op.set c5patch])) < -1 := by
  rw [c5orig_deriv_closed]
  nlinarith [s360_gt, s360_pos, cos12_nonneg, Real.cos_le_one (Real.pi / 12), sqrt3_gt]

theorem c5mirr_deriv_bound :
    0 < angleSolverDeriv (preSolver 1 (run ([Op.reinit, Op.set c5patch].map mirrorOp))) := by
  rw [c5mirr_deriv_closed]
  have h1 := s360_pos
  have h2 := cos12_nonneg
  have h3 := sqrt3_gt
  nlinarith

/-- With the original scenario's residual and derivative the servo commands
full speed toward smaller gyro angles. -/
theorem c5orig_stv :
    servoTargetVelocity (angleSolverErr (preSolver 1 (run [Op.reinit, Op.set c5patch])))
      (angleSolverDeriv (preSolver 1 (run [Op.reinit, Op.set c5patch]))) 1 = -8 := by
  have he := c5orig_err_bound
  have hd := c5orig_deriv_bound
  unfold servoTargetVelocity
  dsimp only
  rw [if_pos (by rw [abs_of_neg (by linarith)]; linarith)]
  rw [Real.sign_of_neg (div_neg_of_pos_of_neg (by linarith) (by linarith))]
  rw [if_neg (by rw [abs_of_neg (by linarith)]; push_neg; linarith)]
  unfold gyroServoRate
  norm_num

/-- For a positive residual and positive derivative (any branch) the servo
target velocity is negative and no faster than the full servo rate. -/
theorem stv_pos_case {e d : ℝ} (he : 0 < e) (hd : 0 < d) :
    -8 ≤ servoTargetVelocity e d 1 ∧ servoTargetVelocity e d 1 < 0 := by
  unfold servoTargetVelocity gyroServoRate
  dsimp only
  split_ifs with h1 h2
  · rw [Real.sign_of_neg (div_neg_of_neg_of_pos (by linarith) hd)]
    rw [abs_of_pos he] at h2 ⊢
    constructor <;> nlinarith
  · rw [Real.sign_of_neg (div_neg_of_neg_of_pos (by linarith) hd)]
    norm_num
  · rw [Real.sign_of_pos he]
    norm_num

/-- The original scenario's gyro output after its first step: exactly 59.6
degrees. -/
theorem c5orig_gyro : (run c5ops).outputs.gyroAngle = 59.6 := by
  have hrun : run c5ops = runAngleSolver 1 (preSolver 1 (run [Op.reinit, Op.set c5patch])) :=
    rfl
  obtain ⟨h1, h2, h3, h4, h5, h6, h7⟩ := c5orig_pre
  have hbig : ¬ |angleSolverErr (preSolver 1 (run [Op.reinit, Op.set c5patch]))| <
      max 10 ((preSolver 1 (run [Op.reinit, Op.set c5patch])).outputs.presentRange * 0.005) := by
    rw [h1]
    have he := c5orig_err_bound
    rw [abs_of_neg (by linarith),
      show max (10 : ℝ) (10 * 0.005) = 10 by norm_num [max_def]]
    push_neg
    linarith
  rw [hrun, runAngleSolver_gyro_hunting 1 _ h6 hbig, h5, h7, c5orig_stv]
  unfold servoInertia
  norm_num [max_def, min_def]

/-- The mirrored scenario's gyro output after its first step is strictly
below -60 degrees. -/
theorem c5mirr_gyro_lt : (run (c5ops.map mirrorOp)).outputs.gyroAngle < -60 := by
  have hrun : run (c5ops.map mirrorOp) =
      runAngleSolver 1 (preSolver 1 (run ([Op.reinit, Op.set c5patch].map mirrorOp))) := rfl
  obtain ⟨h1, h2, h3, h4, h5, h6, h7⟩ := c5mirr_pre
  have he := c5mirr_err_bound
  have hd := c5mirr_deriv_bound
  have hbig : ¬ |angleSolverErr (preSolver 1 (run ([Op.reinit, Op.set c5patch].map mirrorOp)))| <
      max 10 ((preSolver 1
        (run ([Op.reinit, Op.set c5patch].map mirrorOp))).outputs.presentRange * 0.005) := by
    rw [h1]
    rw [abs_of_pos (by linarith),
      show max (10 : ℝ) (10 * 0.005) = 10 by norm_num [max_def]]
    push_neg
    linarith
  have hepos : (0 : ℝ) <
      angleSolverErr (preSolver 1 (run ([Op.reinit, Op.set c5patch].map mirrorOp))) := by
    linarith
  obtain ⟨htv1, htv2⟩ := stv_pos_case hepos hd
  rw [hrun, runAngleSolver_gyro_hunting 1 _ h6 hbig, h5, h7]
  unfold servoInertia
  set tv := servoTargetVelocity
    (angleSolverErr (preSolver 1 (run ([Op.reinit, Op.set c5patch].map mirrorOp))))
    (angleSolverDeriv (preSolver 1 (run ([Op.reinit, Op.set c5patch].map mirrorOp)))) 1 with htvdef
  have hle : (-60 : ℝ) + (0 * 0.95 + tv * (1 - 0.95)) * 1 ≤ 90 := by nlinarith
  have hge : (-90 : ℝ) ≤ -60 + (0 * 0.95 + tv * (1 - 0.95)) * 1 := by nlinarith
  rw [min_eq_right hle, max_eq_right hge]
  nlinarith

/-- C5 counterexample.  Mirroring the scenario (own course `-75` degrees,
target bearing 0, range 10 yards, all speeds zero) and running the same
`initialize` followed by `step 1` does not negate the gyro-angle output: the
original run publishes exactly 59.6 degrees, the mirrored run publishes a
value strictly below -60 degrees (the transfer term `J = Z (1 - cos G)`
enters Error XVIII with the same sign on both sides, so the mirrored
residual is not the negation of the original one and the servo scales its
speed differently). -/
theorem mirror_gyro_not_negated :
    (run (c5ops.map mirrorOp)).outputs.gyroAngle ≠ -(run c5ops).outputs.gyroAngle := by
  intro h
  have hlt := c5mirr_gyro_lt
  rw [h, c5orig_gyro] at hlt
  norm_num at hlt

end

end TDC
